import Mathlib

/-!
Verification of `tools/xstore/core/backup_restore/storage/filestream_client.py`
from the polardbx-operator repository.

The Python module is shallowly embedded below.  Byte streams (file contents,
process stdin/stdout) are modelled as `String`; the local filesystem is a map
`String → Option String`; the behaviour of the spawned external filestream
binary is a parameter (`ProcBehavior`) producing, from the command line, the
bytes on stdin and an abstract external state, the new external state, the
child's exit code and the bytes the child writes to stdout.  Python
exceptions become an explicit error type threaded through `Except`.
The `stderr` and `logger` parameters of the Python methods only redirect
diagnostics or log the command; they have no effect on any behaviour the
spec talks about and are not modelled.
-/

namespace Filestream

/-- Embeds the Python enum `BackupStorage`: available storage for the
filestream client. -/
inductive BackupStorage where
  | OSS
  | SFTP
  | S3
deriving DecidableEq

/-- Embeds membership value of the Python `BackupStorage` enum. -/
def BackupStorage.value : BackupStorage → String
  | .OSS => "OSS"
  | .SFTP => "SFTP"
  | .S3 => "S3"

/-- A runtime storage argument: Python is dynamically typed, so the `storage`
argument of `FileStreamClient.__init__` is either one of the recognized
`BackupStorage` members or some unrecognized foreign value (modelled by a
string tag).  The source only ever compares it with `==` against the three
members, so this is a faithful model of every possible argument. -/
inductive StorageValue where
  | known : BackupStorage → StorageValue
  | unrecognized : String → StorageValue
deriving DecidableEq

/-- Embeds the Python enum `ClientAction`: available actions for the
filestream client. -/
inductive ClientAction where
  | DownloadOss
  | UploadOss
  | DownloadSsh
  | UploadSsh
  | DownloadMinio
  | UploadMinio
deriving DecidableEq

/-- Embeds the `value` of each `ClientAction` member, exactly as in the
source (note the upper-case `D` in `"DownloadSsh"`, as written there). -/
def ClientAction.value : ClientAction → String
  | .DownloadOss => "downloadOss"
  | .UploadOss => "uploadOss"
  | .DownloadSsh => "DownloadSsh"
  | .UploadSsh => "uploadSsh"
  | .DownloadMinio => "downloadMinio"
  | .UploadMinio => "uploadMinio"

/-- The Python exceptions the module can raise: `FilestreamException` (carrying
its message), `NotImplementedError` (from `init_action`), `OSError` (from
`open`, carrying the path), and `AttributeError` (what Python would raise on
`None.value` if an action were still unset when a transfer runs). -/
inductive PyError where
  | filestreamException : String → PyError
  | notImplementedError : PyError
  | osError : String → PyError
  | attributeError : PyError
deriving DecidableEq

/-- The two members of `core.context.Context` that the client reads:
`context.filestream_client()` (path of the external binary) and
`context.host_info()` (path of the host-info file). -/
structure Context where
  filestream_client : String
  host_info : String
deriving DecidableEq

/-- Embeds the Python class `FileStreamClient`'s instance state.  The two
action fields are `Option`-valued because `__init__` first sets them to
`None` and only `init_action` fills them in. -/
structure FileStreamClient where
  client : String
  host_info : String
  storage : StorageValue
  sink : String
  download_action : Option ClientAction
  upload_action : Option ClientAction
deriving DecidableEq

/-- Embeds `FileStreamClient.init_action`: the `if/elif/elif/else` chain that
resolves the download/upload action pair from the storage backend, raising
`NotImplementedError` on anything unrecognized. -/
def FileStreamClient.init_action (self : FileStreamClient) :
    Except PyError FileStreamClient :=
  if self.storage = StorageValue.known .OSS then
    .ok { self with download_action := some .DownloadOss,
                    upload_action := some .UploadOss }
  else if self.storage = StorageValue.known .SFTP then
    .ok { self with download_action := some .DownloadSsh,
                    upload_action := some .UploadSsh }
  else if self.storage = StorageValue.known .S3 then
    .ok { self with download_action := some .DownloadMinio,
                    upload_action := some .UploadMinio }
  else
    .error .notImplementedError

/-- Embeds `FileStreamClient.__init__`: records the context members, storage
and sink, starts both actions at `None`, and immediately runs `init_action`;
a `NotImplementedError` raised there escapes the constructor, so no client
object is produced. -/
def FileStreamClient.new (context : Context) (storage : StorageValue)
    (sink : String) : Except PyError FileStreamClient :=
  FileStreamClient.init_action
    { client := context.filestream_client
      host_info := context.host_info
      storage := storage
      sink := sink
      download_action := none
      upload_action := none }

/-- Behaviour of a spawned external child process: from the command line, the
bytes fed to its stdin and the current external-world state, produce the new
external-world state, the child's exit code (`wait()`'s result) and the bytes
it writes to its stdout. -/
def ProcBehavior (σ : Type) : Type :=
  List String → String → σ → σ × Int × String

/-- The upload command list built by `upload_from_stdin`, line for line: the
five base arguments, then the four conditional `append`s in source order
(inline-string OSS flag, inline-string S3 flag, size-hint OSS flag,
size-hint S3 flag).  `ua` is the value of `self._upload_action` (the source
reads `self._upload_action.value`). -/
def FileStreamClient.upload_cmd (self : FileStreamClient) (ua : ClientAction)
    (remote_path : String) (is_string_input : Bool) (file_size : String) :
    List String :=
  let upload_cmd := [self.client,
    "--meta.action=" ++ ua.value,
    "--meta.sink=" ++ self.sink,
    "--meta.filename=" ++ remote_path,
    "--hostInfoFilePath=" ++ self.host_info]
  let upload_cmd :=
    if is_string_input = true ∧ self.storage = StorageValue.known .OSS then
      upload_cmd ++ ["--meta.ossBufferSize=102400"] else upload_cmd
  let upload_cmd :=
    if is_string_input = true ∧ self.storage = StorageValue.known .S3 then
      upload_cmd ++ ["--meta.minioBufferSize=102400"] else upload_cmd
  let upload_cmd :=
    if file_size ≠ "" ∧ self.storage = StorageValue.known .OSS then
      upload_cmd ++ ["--meta.ossBufferSize=" ++ file_size] else upload_cmd
  let upload_cmd :=
    if file_size ≠ "" ∧ self.storage = StorageValue.known .S3 then
      upload_cmd ++ ["--meta.minioBufferSize=" ++ file_size] else upload_cmd
  upload_cmd

/-- Embeds `FileStreamClient.upload_from_stdin`.  Returns the Python result
(`()` on success, the raised exception otherwise), the external-world state
after the call, and the trace of children of the external binary that were
spawned, as (command line, stdin bytes) pairs.  `if return_code:` is Python
integer truthiness, i.e. `return_code ≠ 0`. -/
def FileStreamClient.upload_from_stdin {σ : Type} (self : FileStreamClient)
    (remote_path : String) (stdin : String) (is_string_input : Bool)
    (file_size : String) (proc : ProcBehavior σ) (s : σ) :
    Except PyError Unit × σ × List (List String × String) :=
  match self.upload_action with
  | none => (.error .attributeError, s, [])
  | some ua =>
    let cmd := self.upload_cmd ua remote_path is_string_input file_size
    let res := proc cmd stdin s
    let return_code := res.2.1
    if return_code ≠ 0 then
      (.error (.filestreamException
        ("Failed to upload, return code: " ++ toString return_code)),
       res.1, [(cmd, stdin)])
    else
      (.ok (), res.1, [(cmd, stdin)])

/-- The download command list built by `download_to_stdout`, line for line.
`da` is the value of `self._download_action`. -/
def FileStreamClient.download_cmd (self : FileStreamClient)
    (da : ClientAction) (remote_path : String) : List String :=
  [self.client,
   "--meta.action=" ++ da.value,
   "--meta.sink=" ++ self.sink,
   "--meta.filename=" ++ remote_path,
   "--hostInfoFilePath=" ++ self.host_info]

/-- Embeds `FileStreamClient.download_to_stdout`.  The extra `String`
component is the bytes the child writes to the `stdout` sink handed to
`Popen` (the caller's stream or file). -/
def FileStreamClient.download_to_stdout {σ : Type} (self : FileStreamClient)
    (remote_path : String) (proc : ProcBehavior σ) (s : σ) :
    Except PyError Unit × String × σ × List (List String × String) :=
  match self.download_action with
  | none => (.error .attributeError, "", s, [])
  | some da =>
    let cmd := self.download_cmd da remote_path
    let res := proc cmd "" s
    let return_code := res.2.1
    if return_code ≠ 0 then
      (.error (.filestreamException
        ("Failed to download, return code: " ++ toString return_code)),
       res.2.2, res.1, [(cmd, "")])
    else
      (.ok (), res.2.2, res.1, [(cmd, "")])

/-- File-handle events on the local filesystem, used to express that the
`with open(...)` blocks release what they acquire. -/
inductive FileEvent where
  | opened : String → FileEvent
  | closed : String → FileEvent
deriving DecidableEq

/-- Embeds `FileStreamClient.upload_from_file`.  `fs` is the local
filesystem (`open(local, "r")` raises `OSError` when `fs local = none`);
`os.path.getsize` is the length of the content; the opened file is the
stdin of the transfer.  The last component lists the handle events on
`local`: the `with` block closes the handle whether `upload_from_stdin`
returns or raises, and acquires nothing when `open` itself raises. -/
def FileStreamClient.upload_from_file {σ : Type} (self : FileStreamClient)
    (remote : String) (local_ : String) (fs : String → Option String)
    (proc : ProcBehavior σ) (s : σ) :
    Except PyError Unit × σ × List (List String × String) × List FileEvent :=
  match fs local_ with
  | none => (.error (.osError local_), s, [], [])
  | some content =>
    let file_size := content.length
    let r := self.upload_from_stdin remote content false (toString file_size)
      proc s
    (r.1, r.2.1, r.2.2, [FileEvent.opened local_, FileEvent.closed local_])

/-- Embeds `FileStreamClient.download_to_file`.  `open(local, 'w')` raises
`OSError` when the path is not writable, and otherwise truncates the file
before the transfer starts; whatever the child wrote to its stdout ends up
in the file.  Returns the Python result, the filesystem after the call, the
external state and the spawn trace. -/
def FileStreamClient.download_to_file {σ : Type} (self : FileStreamClient)
    (remote : String) (local_ : String) (fs : String → Option String)
    (writable : String → Bool) (proc : ProcBehavior σ) (s : σ) :
    Except PyError Unit × (String → Option String) × σ
      × List (List String × String) :=
  if writable local_ then
    let r := self.download_to_stdout remote proc s
    (r.1, fun p => if p = local_ then some r.2.1 else fs p, r.2.2.1, r.2.2.2)
  else
    (.error (.osError local_), fs, s, [])

/-- The bytes `/bin/echo string` writes to its stdout pipe: the string
followed by a newline. -/
def echo_stdout (string : String) : String :=
  string ++ "\n"

/-- Embeds `FileStreamClient.upload_from_string`: spawns `echo string`, whose
stdout pipe (the string followed by a newline) becomes the stdin of an
`upload_from_stdin` call with `is_string_input=True` and the default
`file_size=""`. -/
def FileStreamClient.upload_from_string {σ : Type} (self : FileStreamClient)
    (remote : String) (string : String) (proc : ProcBehavior σ) (s : σ) :
    Except PyError Unit × σ × List (List String × String) :=
  self.upload_from_stdin remote (echo_stdout string) true "" proc s

/-! Helper vocabulary for the statements: the action pairing per backend, the
client a successful construction yields, and string/list facts about flags. -/

/-- The download action `init_action` assigns for each recognized backend. -/
def downloadActionOf : BackupStorage → ClientAction
  | .OSS => .DownloadOss
  | .SFTP => .DownloadSsh
  | .S3 => .DownloadMinio

/-- The upload action `init_action` assigns for each recognized backend. -/
def uploadActionOf : BackupStorage → ClientAction
  | .OSS => .UploadOss
  | .SFTP => .UploadSsh
  | .S3 => .UploadMinio

/-- The client object `FileStreamClient.__init__` produces for a recognized
backend. -/
def mkKnown (context : Context) (b : BackupStorage) (sink : String) :
    FileStreamClient :=
  { client := context.filestream_client
    host_info := context.host_info
    storage := StorageValue.known b
    sink := sink
    download_action := some (downloadActionOf b)
    upload_action := some (uploadActionOf b) }

/-- Tests whether the flag string `a` starts with the flag name `p` (such as
`"--meta.ossBufferSize="`). -/
def hasPfx (p a : String) : Bool :=
  decide (a.data.take p.data.length = p.data)

/-- Drops a leading flag name from a flag string, leaving the flag's value. -/
def dropPfx (p a : String) : String :=
  String.mk (a.data.drop p.data.length)

/-- The value the external binary effectively uses for a repeated
command-line flag: the value of the last occurrence of the flag in the
command line (last-occurrence-wins parsing of repeated flags). -/
def effectiveFlagValue (cmd : List String) (p : String) : Option String :=
  ((cmd.filter fun a => hasPfx p a).getLast?).map fun a => dropPfx p a

/-- The `value`s of the three upload members of `ClientAction`. -/
def uploadActionValues : List String :=
  ["uploadOss", "uploadSsh", "uploadMinio"]

/-- A stub external binary that echoes its input to its output: a child run
with an upload action stores its stdin bytes at the remote path named by the
`--meta.filename=` argument, and a child run with a download action writes
the bytes stored at that path to its stdout.  The external state is the
remote store, a map from remote path to stored bytes. -/
def echoStub : ProcBehavior (String → Option String) :=
  fun cmd stdin rs =>
    let action := dropPfx "--meta.action=" (cmd.getD 1 "")
    let filename := dropPfx "--meta.filename=" (cmd.getD 3 "")
    if action ∈ uploadActionValues then
      (fun p => if p = filename then some stdin else rs p, 0, "")
    else
      (rs, 0, (rs filename).getD "")

/-- A concrete context used to instantiate the claim theorems. -/
def wContext : Context :=
  { filestream_client := "/usr/bin/fsclient", host_info := "/etc/hostinfo" }

/-- A stateless external binary that always exits 0. -/
def wProc0 : ProcBehavior Unit := fun _ _ _ => ((), 0, "")

/-- A stateless external binary that always exits 7. -/
def wProc7 : ProcBehavior Unit := fun _ _ _ => ((), 7, "")

/-- A concrete one-file local filesystem used to instantiate the claim
theorems. -/
def wFs : String → Option String :=
  fun p => if p = "/data/a.txt" then some "payload" else none

/-- A local filesystem on which no path can be opened for writing. -/
def wUnwritable : String → Bool := fun _ => false

lemma new_known (context : Context) (b : BackupStorage) (sink : String) :
    FileStreamClient.new context (.known b) sink = .ok (mkKnown context b sink) := by
  cases b <;> rfl

lemma new_known_inv {context : Context} {b : BackupStorage} {sink : String}
    {c : FileStreamClient}
    (hc : FileStreamClient.new context (.known b) sink = .ok c) :
    c = mkKnown context b sink := by
  rw [new_known] at hc
  exact (Except.ok.inj hc).symm

lemma hasPfx_append (p s : String) : hasPfx p (p ++ s) = true := by
  simp [hasPfx, String.data_append, List.take_left]

lemma dropPfx_append (p s : String) : dropPfx p (p ++ s) = s := by
  apply String.ext
  simp [dropPfx, String.data_append, List.drop_left]

lemma hasPfx_append_false (p a s : String)
    (h : a.data.take p.data.length ≠ p.data.take a.data.length) :
    hasPfx p (a ++ s) = false := by
  simp only [hasPfx, String.data_append, decide_eq_false_iff_not]
  intro hEq
  rcases Nat.le_total p.data.length a.data.length with hle | hle
  · apply h
    rw [List.take_append_eq_append_take, Nat.sub_eq_zero_of_le hle,
      List.take_zero, List.append_nil] at hEq
    rw [hEq, List.take_of_length_le hle]
  · apply h
    rw [List.take_append_eq_append_take] at hEq
    have ha : a.data.take p.data.length = a.data :=
      List.take_of_length_le hle
    rw [ha] at hEq ⊢
    rw [← hEq, List.take_append_eq_append_take, List.take_of_length_le
      (Nat.le_refl _), Nat.sub_self, List.take_zero, List.append_nil]

lemma effectiveFlagValue_concat (l : List String) (p v : String) :
    effectiveFlagValue (l ++ [p ++ v]) p = some v := by
  unfold effectiveFlagValue
  rw [List.filter_append]
  simp [hasPfx_append, dropPfx_append]

lemma upload_cmd_eq (self : FileStreamClient) (ua : ClientAction)
    (remote_path : String) (is_string_input : Bool) (file_size : String) :
    self.upload_cmd ua remote_path is_string_input file_size =
      [self.client, "--meta.action=" ++ ua.value, "--meta.sink=" ++ self.sink,
       "--meta.filename=" ++ remote_path,
       "--hostInfoFilePath=" ++ self.host_info]
      ++ ((if is_string_input = true ∧ self.storage = StorageValue.known .OSS
            then ["--meta.ossBufferSize=102400"] else [])
      ++ ((if is_string_input = true ∧ self.storage = StorageValue.known .S3
            then ["--meta.minioBufferSize=102400"] else [])
      ++ ((if file_size ≠ "" ∧ self.storage = StorageValue.known .OSS
            then ["--meta.ossBufferSize=" ++ file_size] else [])
      ++ (if file_size ≠ "" ∧ self.storage = StorageValue.known .S3
            then ["--meta.minioBufferSize=" ++ file_size] else [])))) := by
  by_cases h1 : is_string_input = true
      ∧ self.storage = StorageValue.known BackupStorage.OSS <;>
  by_cases h2 : is_string_input = true
      ∧ self.storage = StorageValue.known BackupStorage.S3 <;>
  by_cases h3 : file_size ≠ ""
      ∧ self.storage = StorageValue.known BackupStorage.OSS <;>
  by_cases h4 : file_size ≠ ""
      ∧ self.storage = StorageValue.known BackupStorage.S3 <;>
  simp [FileStreamClient.upload_cmd, h1, h2, h3, h4] <;> split <;> simp

lemma upload_from_stdin_trace {σ : Type} (c : FileStreamClient)
    (ua : ClientAction) (remote_path stdin : String) (is_string_input : Bool)
    (file_size : String) (proc : ProcBehavior σ) (s : σ)
    (hu : c.upload_action = some ua) :
    (c.upload_from_stdin remote_path stdin is_string_input file_size proc s).2.2
      = [(c.upload_cmd ua remote_path is_string_input file_size, stdin)] := by
  simp only [FileStreamClient.upload_from_stdin, hu]
  split <;> rfl

lemma download_to_stdout_trace {σ : Type} (c : FileStreamClient)
    (da : ClientAction) (remote_path : String) (proc : ProcBehavior σ) (s : σ)
    (hd : c.download_action = some da) :
    (c.download_to_stdout remote_path proc s).2.2.2
      = [(c.download_cmd da remote_path, "")] := by
  simp only [FileStreamClient.download_to_stdout, hd]
  split <;> rfl

lemma upload_cmd_split_OSS (self : FileStreamClient) (ua : ClientAction)
    (remote_path : String) (is_string_input : Bool) (file_size : String)
    (hS : self.storage = StorageValue.known .OSS) (hfs : file_size ≠ "") :
    ∃ l, self.upload_cmd ua remote_path is_string_input file_size
      = l ++ ["--meta.ossBufferSize=" ++ file_size] := by
  rw [upload_cmd_eq]
  refine ⟨[self.client, "--meta.action=" ++ ua.value,
    "--meta.sink=" ++ self.sink, "--meta.filename=" ++ remote_path,
    "--hostInfoFilePath=" ++ self.host_info]
    ++ (if is_string_input = true then ["--meta.ossBufferSize=102400"]
        else []), ?_⟩
  by_cases hi : is_string_input = true <;> simp [hS, hfs, hi]

lemma upload_cmd_split_S3 (self : FileStreamClient) (ua : ClientAction)
    (remote_path : String) (is_string_input : Bool) (file_size : String)
    (hS : self.storage = StorageValue.known .S3) (hfs : file_size ≠ "") :
    ∃ l, self.upload_cmd ua remote_path is_string_input file_size
      = l ++ ["--meta.minioBufferSize=" ++ file_size] := by
  rw [upload_cmd_eq]
  refine ⟨[self.client, "--meta.action=" ++ ua.value,
    "--meta.sink=" ++ self.sink, "--meta.filename=" ++ remote_path,
    "--hostInfoFilePath=" ++ self.host_info]
    ++ (if is_string_input = true then ["--meta.minioBufferSize=102400"]
        else []), ?_⟩
  by_cases hi : is_string_input = true <;> simp [hS, hfs, hi]

/-- C3: for each of the three recognized backends, constructing a
`FileStreamClient` succeeds and resolves exactly one download action and one
upload action, with the pairing OSS→(DownloadOss, UploadOss),
SFTP→(DownloadSsh, UploadSsh), S3→(DownloadMinio, UploadMinio); neither
action field is left `None` after construction. -/
theorem C3_construction_resolves_action_pairing (context : Context)
    (sink : String) (b : BackupStorage) :
    FileStreamClient.new context (.known b) sink = .ok (mkKnown context b sink)
    ∧ (mkKnown context b sink).download_action ≠ none
    ∧ (mkKnown context b sink).upload_action ≠ none
    ∧ (b = .OSS →
        (mkKnown context b sink).download_action = some .DownloadOss
        ∧ (mkKnown context b sink).upload_action = some .UploadOss)
    ∧ (b = .SFTP →
        (mkKnown context b sink).download_action = some .DownloadSsh
        ∧ (mkKnown context b sink).upload_action = some .UploadSsh)
    ∧ (b = .S3 →
        (mkKnown context b sink).download_action = some .DownloadMinio
        ∧ (mkKnown context b sink).upload_action = some .UploadMinio) := by
  refine ⟨new_known context b sink, ?_⟩
  cases b <;> simp [mkKnown, downloadActionOf, uploadActionOf]

/-- C4: constructing a `FileStreamClient` with any storage value outside the
recognized set {OSS, SFTP, S3} raises `NotImplementedError` during
construction itself (the constructor calls `init_action` and the error
escapes), so no client object exists on which a transfer could later be
attempted — the failure is never deferred to first use. -/
theorem C4_unrecognized_backend_fails_at_construction (context : Context)
    (sink : String) (v : String) :
    FileStreamClient.new context (.unrecognized v) sink
      = .error .notImplementedError := by
  simp [FileStreamClient.new, FileStreamClient.init_action]

/-- C1: every `upload_from_stdin` call with a non-empty `file_size` (size
hint) spawns a command that includes the backend-specific buffer-size flag
carrying exactly that value, and because the size-hint flag is appended
after the fixed inline-string default `102400`, the effective
(last-occurrence-wins) value of the buffer flag is the size hint even when
`is_string_input` is also set.  SFTP has no backend-specific buffer flag
(see C5), so the flag clauses are the OSS and S3 ones. -/
theorem C1_size_hint_buffer_flag {σ : Type} (context : Context)
    (b : BackupStorage) (sink remote_path stdin file_size : String)
    (is_string_input : Bool) (c : FileStreamClient) (proc : ProcBehavior σ)
    (s : σ) (hc : FileStreamClient.new context (.known b) sink = .ok c)
    (hfs : file_size ≠ "") :
    (c.upload_from_stdin remote_path stdin is_string_input file_size proc s).2.2
      = [(c.upload_cmd (uploadActionOf b) remote_path is_string_input file_size,
          stdin)]
    ∧ (b = .OSS →
        ("--meta.ossBufferSize=" ++ file_size)
          ∈ c.upload_cmd (uploadActionOf b) remote_path is_string_input file_size
        ∧ effectiveFlagValue
            (c.upload_cmd (uploadActionOf b) remote_path is_string_input
              file_size) "--meta.ossBufferSize=" = some file_size)
    ∧ (b = .S3 →
        ("--meta.minioBufferSize=" ++ file_size)
          ∈ c.upload_cmd (uploadActionOf b) remote_path is_string_input file_size
        ∧ effectiveFlagValue
            (c.upload_cmd (uploadActionOf b) remote_path is_string_input
              file_size) "--meta.minioBufferSize=" = some file_size) := by
  have hcv := new_known_inv hc
  subst hcv
  refine ⟨upload_from_stdin_trace _ _ _ _ _ _ _ _ rfl, ?_, ?_⟩
  · intro hb
    subst hb
    obtain ⟨l, hl⟩ := upload_cmd_split_OSS (mkKnown context .OSS sink)
      (uploadActionOf .OSS) remote_path is_string_input file_size rfl hfs
    rw [hl]
    exact ⟨by simp, effectiveFlagValue_concat l _ file_size⟩
  · intro hb
    subst hb
    obtain ⟨l, hl⟩ := upload_cmd_split_S3 (mkKnown context .S3 sink)
      (uploadActionOf .S3) remote_path is_string_input file_size rfl hfs
    rw [hl]
    exact ⟨by simp, effectiveFlagValue_concat l _ file_size⟩

/-- Witness for C1 at a concrete OSS client, with both the inline-string
flag and the size hint `"7"` supplied. -/
theorem C1_size_hint_buffer_flag_witness :
    ((mkKnown wContext .OSS "default").upload_from_stdin "r" "x" true "7"
        wProc0 ()).2.2
      = [((mkKnown wContext .OSS "default").upload_cmd (uploadActionOf .OSS)
          "r" true "7", "x")]
    ∧ (BackupStorage.OSS = .OSS →
        ("--meta.ossBufferSize=" ++ "7")
          ∈ (mkKnown wContext .OSS "default").upload_cmd (uploadActionOf .OSS)
              "r" true "7"
        ∧ effectiveFlagValue
            ((mkKnown wContext .OSS "default").upload_cmd (uploadActionOf .OSS)
              "r" true "7") "--meta.ossBufferSize=" = some "7")
    ∧ (BackupStorage.OSS = .S3 →
        ("--meta.minioBufferSize=" ++ "7")
          ∈ (mkKnown wContext .OSS "default").upload_cmd (uploadActionOf .OSS)
              "r" true "7"
        ∧ effectiveFlagValue
            ((mkKnown wContext .OSS "default").upload_cmd (uploadActionOf .OSS)
              "r" true "7") "--meta.minioBufferSize=" = some "7") :=
  C1_size_hint_buffer_flag wContext .OSS "default" "r" "x" "7" true
    (mkKnown wContext .OSS "default") wProc0 ()
    (new_known wContext .OSS "default") (by decide)

/-- C2: exit-code contract of both transfer paths.  For every call to
`upload_from_stdin` and `download_to_stdout`, a child exit code of 0 yields
a non-raising return, and every non-zero exit code raises a
`FilestreamException` whose message carries exactly that code; a non-zero
exit is never a silent success and no particular non-zero code is remapped. -/
theorem C2_exit_code_contract {σ : Type} (c : FileStreamClient)
    (ua da : ClientAction) (remote_path stdin : String)
    (is_string_input : Bool) (file_size : String) (proc : ProcBehavior σ)
    (s : σ) (hu : c.upload_action = some ua)
    (hd : c.download_action = some da) :
    ((proc (c.upload_cmd ua remote_path is_string_input file_size) stdin
        s).2.1 = 0 →
      (c.upload_from_stdin remote_path stdin is_string_input file_size proc
        s).1 = .ok ())
    ∧ ((proc (c.upload_cmd ua remote_path is_string_input file_size) stdin
        s).2.1 ≠ 0 →
      (c.upload_from_stdin remote_path stdin is_string_input file_size proc
        s).1 = .error (.filestreamException
          ("Failed to upload, return code: " ++ toString
            (proc (c.upload_cmd ua remote_path is_string_input file_size)
              stdin s).2.1)))
    ∧ ((proc (c.download_cmd da remote_path) "" s).2.1 = 0 →
      (c.download_to_stdout remote_path proc s).1 = .ok ())
    ∧ ((proc (c.download_cmd da remote_path) "" s).2.1 ≠ 0 →
      (c.download_to_stdout remote_path proc s).1
        = .error (.filestreamException
          ("Failed to download, return code: " ++ toString
            (proc (c.download_cmd da remote_path) "" s).2.1))) := by
  refine ⟨?_, ?_, ?_, ?_⟩ <;> intro h <;>
    simp [FileStreamClient.upload_from_stdin,
      FileStreamClient.download_to_stdout, hu, hd, h]

/-- Witness for C2 at a concrete SFTP client against a child that always
exits with code 7. -/
theorem C2_exit_code_contract_witness :
    ((wProc7 ((mkKnown wContext .SFTP "default").upload_cmd .UploadSsh "r"
        false "") "x" ()).2.1 = 0 →
      ((mkKnown wContext .SFTP "default").upload_from_stdin "r" "x" false ""
        wProc7 ()).1 = .ok ())
    ∧ ((wProc7 ((mkKnown wContext .SFTP "default").upload_cmd .UploadSsh "r"
        false "") "x" ()).2.1 ≠ 0 →
      ((mkKnown wContext .SFTP "default").upload_from_stdin "r" "x" false ""
        wProc7 ()).1 = .error (.filestreamException
          ("Failed to upload, return code: " ++ toString
            (wProc7 ((mkKnown wContext .SFTP "default").upload_cmd .UploadSsh
              "r" false "") "x" ()).2.1)))
    ∧ ((wProc7 ((mkKnown wContext .SFTP "default").download_cmd .DownloadSsh
        "r") "" ()).2.1 = 0 →
      ((mkKnown wContext .SFTP "default").download_to_stdout "r" wProc7
        ()).1 = .ok ())
    ∧ ((wProc7 ((mkKnown wContext .SFTP "default").download_cmd .DownloadSsh
        "r") "" ()).2.1 ≠ 0 →
      ((mkKnown wContext .SFTP "default").download_to_stdout "r" wProc7
        ()).1 = .error (.filestreamException
          ("Failed to download, return code: " ++ toString
            (wProc7 ((mkKnown wContext .SFTP "default").download_cmd
              .DownloadSsh "r") "" ()).2.1))) :=
  C2_exit_code_contract (mkKnown wContext .SFTP "default") .UploadSsh
    .DownloadSsh "r" "x" false "" wProc7 () rfl rfl

/-- C5: every `upload_from_stdin` call with `is_string_input=True` and no
size hint spawns a command that is exactly the five base arguments plus
`--meta.ossBufferSize=102400` when the backend is OSS, plus
`--meta.minioBufferSize=102400` when the backend is S3, and exactly the five
base arguments with no buffer-size flag at all when the backend is SFTP. -/
theorem C5_inline_string_default_buffer_flag {σ : Type} (context : Context)
    (b : BackupStorage) (sink remote_path stdin : String)
    (c : FileStreamClient) (proc : ProcBehavior σ) (s : σ)
    (hc : FileStreamClient.new context (.known b) sink = .ok c) :
    (c.upload_from_stdin remote_path stdin true "" proc s).2.2
      = [(c.upload_cmd (uploadActionOf b) remote_path true "", stdin)]
    ∧ (b = .OSS →
        c.upload_cmd (uploadActionOf b) remote_path true ""
          = [context.filestream_client, "--meta.action=uploadOss",
             "--meta.sink=" ++ sink, "--meta.filename=" ++ remote_path,
             "--hostInfoFilePath=" ++ context.host_info,
             "--meta.ossBufferSize=102400"])
    ∧ (b = .S3 →
        c.upload_cmd (uploadActionOf b) remote_path true ""
          = [context.filestream_client, "--meta.action=uploadMinio",
             "--meta.sink=" ++ sink, "--meta.filename=" ++ remote_path,
             "--hostInfoFilePath=" ++ context.host_info,
             "--meta.minioBufferSize=102400"])
    ∧ (b = .SFTP →
        c.upload_cmd (uploadActionOf b) remote_path true ""
          = [context.filestream_client, "--meta.action=uploadSsh",
             "--meta.sink=" ++ sink, "--meta.filename=" ++ remote_path,
             "--hostInfoFilePath=" ++ context.host_info]) := by
  have hcv := new_known_inv hc
  subst hcv
  refine ⟨upload_from_stdin_trace _ _ _ _ _ _ _ _ rfl, ?_, ?_, ?_⟩ <;>
    (intro hb; subst hb; rw [upload_cmd_eq]; simp [mkKnown, uploadActionOf,
      ClientAction.value])

/-- Witness for C5 at a concrete SFTP client: the command is exactly the
five base arguments. -/
theorem C5_inline_string_default_buffer_flag_witness :
    ((mkKnown wContext .SFTP "default").upload_from_stdin "r" "x" true ""
        wProc0 ()).2.2
      = [((mkKnown wContext .SFTP "default").upload_cmd (uploadActionOf .SFTP)
          "r" true "", "x")]
    ∧ (BackupStorage.SFTP = .OSS →
        (mkKnown wContext .SFTP "default").upload_cmd (uploadActionOf .SFTP)
          "r" true ""
          = [wContext.filestream_client, "--meta.action=uploadOss",
             "--meta.sink=" ++ "default", "--meta.filename=" ++ "r",
             "--hostInfoFilePath=" ++ wContext.host_info,
             "--meta.ossBufferSize=102400"])
    ∧ (BackupStorage.SFTP = .S3 →
        (mkKnown wContext .SFTP "default").upload_cmd (uploadActionOf .SFTP)
          "r" true ""
          = [wContext.filestream_client, "--meta.action=uploadMinio",
             "--meta.sink=" ++ "default", "--meta.filename=" ++ "r",
             "--hostInfoFilePath=" ++ wContext.host_info,
             "--meta.minioBufferSize=102400"])
    ∧ (BackupStorage.SFTP = .SFTP →
        (mkKnown wContext .SFTP "default").upload_cmd (uploadActionOf .SFTP)
          "r" true ""
          = [wContext.filestream_client, "--meta.action=uploadSsh",
             "--meta.sink=" ++ "default", "--meta.filename=" ++ "r",
             "--hostInfoFilePath=" ++ wContext.host_info]) :=
  C5_inline_string_default_buffer_flag wContext .SFTP "default" "r" "x"
    (mkKnown wContext .SFTP "default") wProc0 ()
    (new_known wContext .SFTP "default")

/-- C6: `upload_from_file` opens the local file for reading (an `OSError`
propagates, with nothing spawned and no handle acquired, when it cannot be
opened), computes the file's byte size, and delegates to `upload_from_stdin`
with the file content as stdin, that size rendered as a string as the size
hint, and `is_string_input=False`; the `with` block releases the file handle
whether the delegated upload returns or raises. -/
theorem C6_upload_from_file_delegation {σ : Type} (c : FileStreamClient)
    (remote local_ : String) (fs : String → Option String)
    (proc : ProcBehavior σ) (s : σ) :
    (fs local_ = none →
      c.upload_from_file remote local_ fs proc s
        = (.error (.osError local_), s, [], []))
    ∧ (∀ content, fs local_ = some content →
      (c.upload_from_file remote local_ fs proc s).1
        = (c.upload_from_stdin remote content false (toString content.length)
            proc s).1
      ∧ (c.upload_from_file remote local_ fs proc s).2.1
        = (c.upload_from_stdin remote content false (toString content.length)
            proc s).2.1
      ∧ (c.upload_from_file remote local_ fs proc s).2.2.1
        = (c.upload_from_stdin remote content false (toString content.length)
            proc s).2.2
      ∧ (c.upload_from_file remote local_ fs proc s).2.2.2
        = [FileEvent.opened local_, FileEvent.closed local_]) := by
  constructor
  · intro h
    simp [FileStreamClient.upload_from_file, h]
  · intro content h
    simp [FileStreamClient.upload_from_file, h]

/-- Witness for C6: an unreadable path propagates the filesystem error with
nothing spawned, and a readable path produces a balanced open/close pair. -/
theorem C6_upload_from_file_delegation_witness :
    (mkKnown wContext .OSS "default").upload_from_file "r" "/nope" wFs
        wProc0 () = (.error (.osError "/nope"), (), [], [])
    ∧ ((mkKnown wContext .OSS "default").upload_from_file "r" "/data/a.txt"
        wFs wProc0 ()).2.2.2
      = [FileEvent.opened "/data/a.txt", FileEvent.closed "/data/a.txt"] :=
  ⟨(C6_upload_from_file_delegation (mkKnown wContext .OSS "default") "r"
      "/nope" wFs wProc0 ()).1 rfl,
   ((C6_upload_from_file_delegation (mkKnown wContext .OSS "default") "r"
      "/data/a.txt" wFs wProc0 ()).2 "payload" rfl).2.2.2⟩

/-- C7: when the local path cannot be opened for writing,
`download_to_file` raises the filesystem error with an empty spawn trace —
no child process is ever started on that error path — and the local
filesystem is untouched. -/
theorem C7_unwritable_path_no_spawn {σ : Type} (c : FileStreamClient)
    (remote local_ : String) (fs : String → Option String)
    (writable : String → Bool) (proc : ProcBehavior σ) (s : σ)
    (hw : writable local_ = false) :
    c.download_to_file remote local_ fs writable proc s
      = (.error (.osError local_), fs, s, []) := by
  simp [FileStreamClient.download_to_file, hw]

/-- Witness for C7 at a concrete S3 client and an unwritable path. -/
theorem C7_unwritable_path_no_spawn_witness :
    (mkKnown wContext .S3 "default").download_to_file "r" "/b" wFs
      wUnwritable wProc0 () = (.error (.osError "/b"), wFs, (), []) :=
  C7_unwritable_path_no_spawn (mkKnown wContext .S3 "default") "r" "/b" wFs
    wUnwritable wProc0 () rfl

/-- C8: `upload_from_string "remote/path.txt" "hello"` spawns an upload
child whose attached stdin carries exactly the bytes `hello\n` (the content
plus the newline produced by the `echo` child), with
`is_string_input=True` and no size hint, so the command carries the
inline-string buffer flag on the backends that have one. -/
theorem C8_upload_from_string_bytes {σ : Type} (context : Context)
    (b : BackupStorage) (sink : String) (c : FileStreamClient)
    (proc : ProcBehavior σ) (s : σ)
    (hc : FileStreamClient.new context (.known b) sink = .ok c) :
    (c.upload_from_string "remote/path.txt" "hello" proc s).2.2
      = [(c.upload_cmd (uploadActionOf b) "remote/path.txt" true "",
          "hello\n")]
    ∧ echo_stdout "hello" = "hello\n"
    ∧ (b = .OSS → "--meta.ossBufferSize=102400"
        ∈ c.upload_cmd (uploadActionOf b) "remote/path.txt" true "")
    ∧ (b = .S3 → "--meta.minioBufferSize=102400"
        ∈ c.upload_cmd (uploadActionOf b) "remote/path.txt" true "") := by
  have hcv := new_known_inv hc
  subst hcv
  refine ⟨?_, rfl, ?_, ?_⟩
  · have h := upload_from_stdin_trace (mkKnown context b sink)
      (uploadActionOf b) "remote/path.txt" (echo_stdout "hello") true ""
      proc s rfl
    simpa [FileStreamClient.upload_from_string] using h
  · intro hb
    subst hb
    rw [upload_cmd_eq]
    simp [mkKnown]
  · intro hb
    subst hb
    rw [upload_cmd_eq]
    simp [mkKnown]

/-- Witness for C8 at a concrete OSS client. -/
theorem C8_upload_from_string_bytes_witness :
    ((mkKnown wContext .OSS "default").upload_from_string "remote/path.txt"
        "hello" wProc0 ()).2.2
      = [((mkKnown wContext .OSS "default").upload_cmd (uploadActionOf .OSS)
          "remote/path.txt" true "", "hello\n")]
    ∧ echo_stdout "hello" = "hello\n"
    ∧ (BackupStorage.OSS = .OSS → "--meta.ossBufferSize=102400"
        ∈ (mkKnown wContext .OSS "default").upload_cmd (uploadActionOf .OSS)
            "remote/path.txt" true "")
    ∧ (BackupStorage.OSS = .S3 → "--meta.minioBufferSize=102400"
        ∈ (mkKnown wContext .OSS "default").upload_cmd (uploadActionOf .OSS)
            "remote/path.txt" true "") :=
  C8_upload_from_string_bytes wContext .OSS "default"
    (mkKnown wContext .OSS "default") wProc0 ()
    (new_known wContext .OSS "default")

lemma upload_cmd_getD_one (self : FileStreamClient) (ua : ClientAction)
    (remote_path : String) (is_string_input : Bool) (file_size : String) :
    (self.upload_cmd ua remote_path is_string_input file_size).getD 1 ""
      = "--meta.action=" ++ ua.value := by
  rw [upload_cmd_eq]
  rfl

lemma upload_cmd_getD_three (self : FileStreamClient) (ua : ClientAction)
    (remote_path : String) (is_string_input : Bool) (file_size : String) :
    (self.upload_cmd ua remote_path is_string_input file_size).getD 3 ""
      = "--meta.filename=" ++ remote_path := by
  rw [upload_cmd_eq]
  rfl

lemma echoStub_upload_cmd (self : FileStreamClient) (ua : ClientAction)
    (remote_path stdin : String) (is_string_input : Bool) (file_size : String)
    (rs : String → Option String) (hua : ua.value ∈ uploadActionValues) :
    echoStub (self.upload_cmd ua remote_path is_string_input file_size)
        stdin rs
      = (fun p => if p = remote_path then some stdin else rs p, 0, "") := by
  simp only [echoStub, upload_cmd_getD_one, upload_cmd_getD_three,
    dropPfx_append]
  simp [hua]

lemma echoStub_download_cmd (self : FileStreamClient) (da : ClientAction)
    (remote_path : String) (rs : String → Option String)
    (hda : da.value ∉ uploadActionValues) :
    echoStub (self.download_cmd da remote_path) "" rs
      = (rs, 0, (rs remote_path).getD "") := by
  simp only [echoStub, FileStreamClient.download_cmd, List.getD_cons_succ,
    List.getD_cons_zero, dropPfx_append]
  simp [hda]

/-- C9: uploading a local file A and then downloading the same remote path
into a local file B, against a stub external binary that echoes its input to
its output (modelled as a remote store), reproduces A's exact byte content
in B: the upload succeeds, the download succeeds, and afterwards B holds
exactly the content A had. -/
theorem C9_round_trip (context : Context) (b : BackupStorage)
    (sink remote A B a : String) (c : FileStreamClient)
    (fs : String → Option String) (writable : String → Bool)
    (rs : String → Option String)
    (hc : FileStreamClient.new context (.known b) sink = .ok c)
    (ha : fs A = some a) (hw : writable B = true) :
    (c.upload_from_file remote A fs echoStub rs).1 = .ok ()
    ∧ (c.download_to_file remote B fs writable echoStub
        (c.upload_from_file remote A fs echoStub rs).2.1).1 = .ok ()
    ∧ (c.download_to_file remote B fs writable echoStub
        (c.upload_from_file remote A fs echoStub rs).2.1).2.1 B = some a := by
  have hcv := new_known_inv hc
  subst hcv
  have hua : (uploadActionOf b).value ∈ uploadActionValues := by
    cases b <;> decide
  have hda : (downloadActionOf b).value ∉ uploadActionValues := by
    cases b <;> decide
  have hup : (mkKnown context b sink).upload_from_file remote A fs echoStub rs
      = (.ok (), fun p => if p = remote then some a else rs p,
         [((mkKnown context b sink).upload_cmd (uploadActionOf b) remote
             false (toString a.length), a)],
         [FileEvent.opened A, FileEvent.closed A]) := by
    simp only [FileStreamClient.upload_from_file, ha,
      FileStreamClient.upload_from_stdin, mkKnown]
    rw [echoStub_upload_cmd _ _ _ _ _ _ _ hua]
    simp
  have hdn : (mkKnown context b sink).download_to_stdout remote echoStub
      (fun p => if p = remote then some a else rs p)
      = (.ok (), a, (fun p => if p = remote then some a else rs p),
         [((mkKnown context b sink).download_cmd (downloadActionOf b) remote,
           "")]) := by
    simp only [FileStreamClient.download_to_stdout, mkKnown]
    rw [echoStub_download_cmd _ _ _ _ hda]
    simp
  rw [hup]
  simp only [FileStreamClient.download_to_file, hw, if_pos]
  rw [hdn]
  simp

/-- Witness for C9: a concrete OSS client, the one-file filesystem `wFs`,
an everywhere-writable target and an empty remote store. -/
theorem C9_round_trip_witness :
    ((mkKnown wContext .OSS "default").upload_from_file "rp" "/data/a.txt"
        wFs echoStub (fun _ => none)).1 = .ok ()
    ∧ ((mkKnown wContext .OSS "default").download_to_file "rp" "/data/b.txt"
        wFs (fun _ => true) echoStub
        ((mkKnown wContext .OSS "default").upload_from_file "rp"
          "/data/a.txt" wFs echoStub (fun _ => none)).2.1).1 = .ok ()
    ∧ ((mkKnown wContext .OSS "default").download_to_file "rp" "/data/b.txt"
        wFs (fun _ => true) echoStub
        ((mkKnown wContext .OSS "default").upload_from_file "rp"
          "/data/a.txt" wFs echoStub (fun _ => none)).2.1).2.1 "/data/b.txt"
      = some "payload" :=
  C9_round_trip wContext .OSS "default" "rp" "/data/a.txt" "/data/b.txt"
    "payload" (mkKnown wContext .OSS "default") wFs (fun _ => true)
    (fun _ => none) (new_known wContext .OSS "default") rfl rfl

/-- C10: for every backend and remote path, the command `download_to_stdout`
spawns consists of exactly five elements — the executable path, the action
flag, the sink flag, the filename flag and the host-info flag, in that
order — and carries no buffer-size flag: provided the configured executable
path itself does not begin with a buffer-size flag name, no element of the
download command does, so buffer-size flags can only ever appear on upload
invocations. -/
theorem C10_download_cmd_shape {σ : Type} (context : Context)
    (b : BackupStorage) (sink remote_path : String) (c : FileStreamClient)
    (proc : ProcBehavior σ) (s : σ)
    (hc : FileStreamClient.new context (.known b) sink = .ok c) :
    (c.download_to_stdout remote_path proc s).2.2.2
      = [(c.download_cmd (downloadActionOf b) remote_path, "")]
    ∧ c.download_cmd (downloadActionOf b) remote_path
      = [context.filestream_client,
         "--meta.action=" ++ (downloadActionOf b).value,
         "--meta.sink=" ++ sink, "--meta.filename=" ++ remote_path,
         "--hostInfoFilePath=" ++ context.host_info]
    ∧ (c.download_cmd (downloadActionOf b) remote_path).length = 5
    ∧ (hasPfx "--meta.ossBufferSize=" context.filestream_client = false →
       hasPfx "--meta.minioBufferSize=" context.filestream_client = false →
       ∀ x ∈ c.download_cmd (downloadActionOf b) remote_path,
         hasPfx "--meta.ossBufferSize=" x = false
         ∧ hasPfx "--meta.minioBufferSize=" x = false) := by
  have hcv := new_known_inv hc
  subst hcv
  refine ⟨download_to_stdout_trace _ _ _ _ _ rfl, rfl, rfl, ?_⟩
  intro h1 h2 x hx
  simp only [FileStreamClient.download_cmd, List.mem_cons,
    List.not_mem_nil, or_false] at hx
  rcases hx with rfl | rfl | rfl | rfl | rfl
  · exact ⟨h1, h2⟩
  · exact ⟨hasPfx_append_false _ _ _ (by decide),
      hasPfx_append_false _ _ _ (by decide)⟩
  · exact ⟨hasPfx_append_false _ _ _ (by decide),
      hasPfx_append_false _ _ _ (by decide)⟩
  · exact ⟨hasPfx_append_false _ _ _ (by decide),
      hasPfx_append_false _ _ _ (by decide)⟩
  · exact ⟨hasPfx_append_false _ _ _ (by decide),
      hasPfx_append_false _ _ _ (by decide)⟩

/-- Witness for C10 at a concrete OSS client and remote path. -/
theorem C10_download_cmd_shape_witness :
    ((mkKnown wContext .OSS "default").download_to_stdout "r" wProc0
        ()).2.2.2
      = [((mkKnown wContext .OSS "default").download_cmd
          (downloadActionOf .OSS) "r", "")]
    ∧ (mkKnown wContext .OSS "default").download_cmd (downloadActionOf .OSS)
        "r"
      = [wContext.filestream_client,
         "--meta.action=" ++ (downloadActionOf .OSS).value,
         "--meta.sink=" ++ "default", "--meta.filename=" ++ "r",
         "--hostInfoFilePath=" ++ wContext.host_info]
    ∧ ((mkKnown wContext .OSS "default").download_cmd (downloadActionOf .OSS)
        "r").length = 5
    ∧ (hasPfx "--meta.ossBufferSize=" ("--meta.sink=" ++ "default") = false
       ∧ hasPfx "--meta.minioBufferSize=" ("--meta.sink=" ++ "default")
          = false) :=
  have h := C10_download_cmd_shape wContext .OSS "default" "r"
    (mkKnown wContext .OSS "default") wProc0 ()
    (new_known wContext .OSS "default")
  ⟨h.1, h.2.1, h.2.2.1,
   h.2.2.2 (by decide) (by decide) ("--meta.sink=" ++ "default")
     (by decide)⟩

end Filestream
